import Mathlib

/-!
Verification development for the order orchestration service (MiSArch order).

The Rust source is shallowly embedded: MongoDB collections become Lean lists,
async functions become pure functions threading the affected state, fallible
operations return Except, machine integers (u32/u64) become Nat, bson DateTime
instants become Int (seconds), bson Uuid becomes Nat, and f64 discount factors
are embedded as exact rationals.  Each definition mirrors one function of the
source; comments name the file it was taken from.
-/

namespace OrderService

/-- Uuids are modelled abstractly as naturals. -/
abbrev Uuid := Nat

/-- UTC instants, in seconds (bson DateTime / SystemTime in the source). -/
abbrev Instant := Int

/-- Order lifecycle status, from src/order.rs (enum OrderStatus). -/
inductive OrderStatus where
  | pending
  | placed
  | rejected
deriving DecidableEq

/-- Rejection reason, from src/order.rs (enum RejectionReason). -/
inductive RejectionReason where
  | invalidOrderData
  | inventoryReservationFailed
deriving DecidableEq

/-- Foreign type of a discount, from src/foreign_types.rs.  The f64 factor is
embedded as a rational.  Equality and ordering of discounts in the source are
by the id only; the set container below reflects that. -/
structure Discount where
  _id : Uuid
  discount : ℚ
deriving DecidableEq

/-- Foreign type of a product variant version, from src/foreign_types.rs. -/
structure ProductVariantVersion where
  _id : Uuid
  price : Nat
  tax_rate_id : Uuid
deriving DecidableEq

/-- Foreign type of a product variant, from src/foreign_types.rs. -/
structure ProductVariant where
  _id : Uuid
  current_version : ProductVariantVersion
  is_publicly_visible : Bool
deriving DecidableEq

/-- Foreign type of a tax rate version, from src/foreign_types.rs. -/
structure TaxRateVersion where
  _id : Uuid
  rate : ℚ
  version : Nat
deriving DecidableEq

/-- Projected user, from src/user.rs: id plus the ordered list of address ids. -/
structure User where
  _id : Uuid
  user_address_ids : List Uuid
deriving DecidableEq

/-- Input for one order item, from src/mutation_input_structs.rs. -/
structure OrderItemInput where
  shopping_cart_item_id : Uuid
  shipment_method_id : Uuid
  coupon_ids : List Uuid
deriving DecidableEq

/-- Create-order input, from src/mutation_input_structs.rs (the BTreeSet of
item inputs is carried as a list). -/
structure CreateOrderInput where
  user_id : Uuid
  order_item_inputs : List OrderItemInput
  shipment_address_id : Uuid
  invoice_address_id : Uuid
  payment_information_id : Uuid
deriving DecidableEq

/-- Insertion into the BTreeSet of discounts: discounts are ordered by id and
an insert of an element equal to a present one (same id) keeps the old
element, exactly like BTreeSet insert under the Ord impl of
src/foreign_types.rs.  The set is represented as its ascending iteration
order. -/
def insertDiscount : List Discount → Discount → List Discount
  | [], d => [d]
  | x :: xs, d =>
    if d._id < x._id then d :: x :: xs
    else if d._id = x._id then x :: xs
    else x :: insertDiscount xs d

/-- Collecting a response list of discounts into the BTreeSet
(the collect call in src/mutation.rs when building the per-variant sets). -/
def discountSetOfList (l : List Discount) : List Discount :=
  l.foldl insertDiscount []

/-- From src/graphql/model/order_item.rs (calculate_compensatable_amount):
the undiscounted price is folded through the multiplicative discount factors
of the id-ordered discount set; the final `as u64` cast truncates, which on
the nonnegative values arising here is the floor (and saturates at 0 below). -/
def calculate_compensatable_amount (product_variant_version : ProductVariantVersion)
    (internal_discounts : List Discount) : Nat :=
  let undiscounted_price : ℚ := product_variant_version.price
  let discounted_price :=
    internal_discounts.foldl (fun prev_price d => prev_price * d.discount) undiscounted_price
  ⌊discounted_price⌋.toNat

/-- Order item, merging the fields of src/graphql/model/order_item.rs
(references to foreign entities are kept as ids where the claims only need
ids). -/
structure OrderItem where
  _id : Uuid
  created_at : Instant
  product_variant : ProductVariant
  product_variant_version : ProductVariantVersion
  tax_rate_version : TaxRateVersion
  shopping_cart_item_id : Uuid
  count : Nat
  compensatable_amount : Nat
  shipment_method_id : Uuid
  internal_discounts : List Discount
deriving DecidableEq

/-- Constructor of order items, from src/graphql/model/order_item.rs
(OrderItem::new).  The fresh Uuid::new value is passed explicitly. -/
def OrderItem.new (fresh : Uuid) (order_item_input : OrderItemInput)
    (product_variant : ProductVariant) (product_variant_version : ProductVariantVersion)
    (tax_rate_version : TaxRateVersion) (count : Nat) (internal_discounts : List Discount)
    (current_timestamp : Instant) : OrderItem :=
  { _id := fresh
    created_at := current_timestamp
    product_variant := product_variant
    product_variant_version := product_variant_version
    tax_rate_version := tax_rate_version
    shopping_cart_item_id := order_item_input.shopping_cart_item_id
    count := count
    compensatable_amount :=
      calculate_compensatable_amount product_variant_version internal_discounts
    shipment_method_id := order_item_input.shipment_method_id
    internal_discounts := internal_discounts }

/-- From src/mutation.rs (calculate_compensatable_order_amount). -/
def calculate_compensatable_order_amount (order_items : List OrderItem) : Nat :=
  (order_items.map OrderItem.compensatable_amount).sum

/-- The order aggregate, from src/order.rs. -/
structure Order where
  _id : Uuid
  user : User
  created_at : Instant
  order_status : OrderStatus
  placed_at : Option Instant
  rejection_reason : Option RejectionReason
  internal_order_items : List OrderItem
  shipment_address_id : Uuid
  invoice_address_id : Uuid
  compensatable_order_amount : Nat
  payment_information_id : Uuid
deriving DecidableEq

/-- Construction of the order document inserted by create_order in
src/mutation.rs: fresh id, pending status, no placement timestamp, no
rejection reason, user projected from the input id (User::from). -/
def create_order (fresh : Uuid) (user_id : Uuid) (current_timestamp : Instant)
    (internal_order_items : List OrderItem) (shipment_address_id : Uuid)
    (invoice_address_id : Uuid) (payment_information_id : Uuid) : Order :=
  { _id := fresh
    user := { _id := user_id, user_address_ids := [] }
    created_at := current_timestamp
    order_status := OrderStatus.pending
    placed_at := none
    rejection_reason := none
    internal_order_items := internal_order_items
    shipment_address_id := shipment_address_id
    invoice_address_id := invoice_address_id
    compensatable_order_amount := calculate_compensatable_order_amount internal_order_items
    payment_information_id := payment_information_id }

/-- The pending window from src/mutation.rs (PENDING_TIMEOUT, 3600 seconds). -/
def PENDING_TIMEOUT : Int := 3600

/-- Error message of the DTO conversion when placed_at is unset. -/
def dtoPlacedAtNoneMsg : String := "OrderDTO cannot be created, placed_at of the given Order is None"

/-- Error message of the timeout rejection path. -/
def rejectedTimeoutMsg : String := "order was rejected as it is pending for too long"

/-- DTO of one order item, from src/order_item.rs (struct OrderItemDTO). -/
structure OrderItemDTO where
  id : Uuid
  created_at : Instant
  product_variant_id : Uuid
  product_variant_version_id : Uuid
  tax_rate_version_id : Uuid
  shopping_cart_item_id : Uuid
  count : Nat
  compensatable_amount : Nat
  shipment_method_id : Uuid
  discount_ids : List Uuid
deriving DecidableEq

/-- Conversion of an order item to its DTO, from src/order_item.rs. -/
def OrderItemDTO.ofOrderItem (value : OrderItem) : OrderItemDTO :=
  { id := value._id
    created_at := value.created_at
    product_variant_id := value.product_variant._id
    product_variant_version_id := value.product_variant_version._id
    tax_rate_version_id := value.tax_rate_version._id
    shopping_cart_item_id := value.shopping_cart_item_id
    count := value.count
    compensatable_amount := value.compensatable_amount
    shipment_method_id := value.shipment_method_id
    discount_ids := value.internal_discounts.map Discount._id }

/-- DTO of an order, from src/order.rs (struct OrderDTO).  Its placed_at field
is not optional. -/
structure OrderDTO where
  id : Uuid
  user_id : Uuid
  created_at : Instant
  order_status : OrderStatus
  placed_at : Instant
  rejection_reason : Option RejectionReason
  order_items : List OrderItemDTO
  shipment_address_id : Uuid
  invoice_address_id : Uuid
  compensatable_order_amount : Nat
  payment_information_id : Uuid
deriving DecidableEq

/-- Conversion of an order to its DTO, from src/order.rs (TryFrom for
OrderDTO): fails whenever placed_at of the given order is unset. -/
def OrderDTO.tryFrom (value : Order) : Except String OrderDTO :=
  match value.placed_at with
  | none => Except.error dtoPlacedAtNoneMsg
  | some t =>
    Except.ok
      { id := value._id
        user_id := value.user._id
        created_at := value.created_at
        order_status := value.order_status
        placed_at := t
        rejection_reason := value.rejection_reason
        order_items := value.internal_order_items.map OrderItemDTO.ofOrderItem
        shipment_address_id := value.shipment_address_id
        invoice_address_id := value.invoice_address_id
        compensatable_order_amount := value.compensatable_order_amount
        payment_information_id := value.payment_information_id }

/-- From src/mutation.rs (set_status_placed_in_mongodb): the document update
sets order_status and placed_at. -/
def set_status_placed_in_mongodb (o : Order) (current_timestamp : Instant) : Order :=
  { o with order_status := OrderStatus.placed, placed_at := some current_timestamp }

/-- From src/mutation.rs (set_status_rejected_in_mongodb): the document update
sets only order_status; rejection_reason and placed_at are left untouched, and
the function always returns an error. -/
def set_status_rejected_in_mongodb (o : Order) : Order × Except String Unit :=
  ({ o with order_status := OrderStatus.rejected }, Except.error rejectedTimeoutMsg)

/-- From src/mutation.rs (set_status_placed): place when the creation
timestamp plus PENDING_TIMEOUT is still at or past the current timestamp
(non-strict comparison), otherwise reject. -/
def set_status_placed (o : Order) (current_timestamp : Instant) : Order × Except String Unit :=
  if o.created_at + PENDING_TIMEOUT ≥ current_timestamp then
    (set_status_placed_in_mongodb o current_timestamp, Except.ok ())
  else
    set_status_rejected_in_mongodb o

/-- From src/mutation.rs (place_order): the order is queried first, then
set_status_placed updates the store, then send_order_created_event builds the
DTO from the order value queried BEFORE the update and publishes it, and
finally the updated order is queried and returned.  The result triple is
(stored order after the call, events published by the call, returned value).
Any error of the event step propagates after the store was already updated. -/
def place_order (o : Order) (current_timestamp : Instant) :
    Order × List OrderDTO × Except String Order :=
  match set_status_placed o current_timestamp with
  | (o2, Except.error e) => (o2, [], Except.error e)
  | (o2, Except.ok _) =>
    match OrderDTO.tryFrom o with
    | Except.error e => (o2, [], Except.error e)
    | Except.ok dto => (o2, [dto], Except.ok o2)

/-- One order document together with all events published so far and the
current time; place and compensation calls never run at a time before an
earlier call (wall-clock monotonicity). -/
structure LifecycleState where
  order : Order
  events : List OrderDTO
  clock : Instant

/-- States of one order reachable by create_order followed by any sequence of
place_order calls and compensation events at non-decreasing times.
Compensation (src/event/order_compensation.rs) only writes the separate
order_compensations collection and never updates the order document. -/
inductive Reachable : LifecycleState → Prop where
  | create (fresh user_id : Uuid) (t : Instant) (items : List OrderItem)
      (ship inv pay : Uuid) :
      Reachable ⟨create_order fresh user_id t items ship inv pay, [], t⟩
  | place (st : LifecycleState) (t : Instant) (h : Reachable st) (ht : st.clock ≤ t) :
      Reachable ⟨(place_order st.order t).1, st.events ++ (place_order st.order t).2.1, t⟩
  | compensate (st : LifecycleState) (t : Instant) (h : Reachable st) (ht : st.clock ≤ t) :
      Reachable ⟨st.order, st.events, t⟩

/-- Data of a shipment failure event, from src/event/http_event_service.rs. -/
structure ShipmentFailedEventData where
  order_id : Uuid
  order_item_ids : List Uuid
deriving DecidableEq

/-- An order compensation record, from src/event/order_compensation.rs. -/
structure OrderCompensation where
  _id : Uuid
  order_id : Uuid
  order_item_ids : List Uuid
  triggered_at : Instant
  amount_to_compensate : Nat
deriving DecidableEq

/-- DTO of an order compensation, from
src/event/model/order_compensation_dto.rs. -/
structure OrderCompensationDTO where
  id : Uuid
  amount_to_compensate : Nat
deriving DecidableEq

/-- Error message of a failed object lookup. -/
def objectNotFoundMsg : String := "object with the specified UUID is not present in the system"

/-- Error message of verify_items_uncompensated. -/
def verifyItemsMsg : String := "order items of the given UUIDs could not be verified"

/-- From src/query.rs (query_object) on the orders collection: find the
document with the given id. -/
def query_object (orders : List Order) (id : Uuid) : Except String Order :=
  match orders.find? (fun o => o._id == id) with
  | some o => Except.ok o
  | none => Except.error objectNotFoundMsg

/-- From src/event/order_compensation.rs (verify_items_uncompensated).  The
MongoDB filter selects every stored compensation having NO element of its
order_item_ids among the requested ids, and the function succeeds exactly
when that result set is empty, i.e. when every stored compensation shares at
least one item id with the request. -/
def verify_items_uncompensated (comps : List OrderCompensation)
    (order_item_ids : List Uuid) : Except String Unit :=
  let disjoint_comps :=
    comps.filter (fun c => !(c.order_item_ids.any (fun x => order_item_ids.contains x)))
  match disjoint_comps.length with
  | 0 => Except.ok ()
  | _ => Except.error verifyItemsMsg

/-- From src/event/order_compensation.rs (calculate_amount_to_compensate):
sum of compensatable_amount over the items of the order whose id occurs in
the event ids. -/
def calculate_amount_to_compensate (order : Order) (ev : ShipmentFailedEventData) : Nat :=
  ((order.internal_order_items.filter
      (fun i => ev.order_item_ids.contains i._id)).map OrderItem.compensatable_amount).sum

/-- From src/event/order_compensation.rs (compensate_order): validate the
order exists, run the verification, compute the amount, insert a record whose
order_item_ids is the event list verbatim, and publish the compensation DTO.
The fresh record id and the triggered_at timestamp are passed explicitly. -/
def compensate_order (orders : List Order) (comps : List OrderCompensation)
    (fresh : Uuid) (now : Instant) (ev : ShipmentFailedEventData) :
    Except String (List OrderCompensation × OrderCompensationDTO) :=
  match query_object orders ev.order_id with
  | Except.error e => Except.error e
  | Except.ok _ =>
    match verify_items_uncompensated comps ev.order_item_ids with
    | Except.error e => Except.error e
    | Except.ok _ =>
      match query_object orders ev.order_id with
      | Except.error e => Except.error e
      | Except.ok order =>
        let amount := calculate_amount_to_compensate order ev
        let oc : OrderCompensation :=
          { _id := fresh
            order_id := ev.order_id
            order_item_ids := ev.order_item_ids
            triggered_at := now
            amount_to_compensate := amount }
        Except.ok (comps ++ [oc], { id := oc._id, amount_to_compensate := oc.amount_to_compensate })

/-- Data of a user address event, from src/event/http_event_service.rs. -/
structure UserAddressEventData where
  id : Uuid
  user_id : Uuid
deriving DecidableEq

/-- MongoDB update_one on the users collection: rewrite the first document
matching the filter id with the given function, leave the rest alone. -/
def update_first (users : List User) (uid : Uuid) (f : User → User) : List User :=
  match users with
  | [] => []
  | u :: rest => if u._id == uid then f u :: rest else u :: update_first rest uid f

/-- From src/event/http_event_service.rs (insert_user_address_in_mongodb):
the update uses a push operation, which appends the address id to
user_address_ids unconditionally (no presence check). -/
def insert_user_address_in_mongodb (users : List User)
    (user_address_event_data : UserAddressEventData) : List User :=
  update_first users user_address_event_data.user_id
    (fun u => { u with user_address_ids := u.user_address_ids ++ [user_address_event_data.id] })

/-- Error message of validate_user_address. -/
def addressNotFoundMsg : String := "address of the given user was not found"

/-- From src/mutation.rs (validate_user_address): the MongoDB filter queries
only for the user id; the address id argument is never compared against the
user_address_ids list. -/
def validate_user_address (users : List User) (id : Uuid) (user_id : Uuid) :
    Except String Unit :=
  match users.find? (fun u => u._id == user_id) with
  | some _ => Except.ok ()
  | none => Except.error addressNotFoundMsg

/-- From src/mutation.rs (validate_addresses): validate the shipment address
and then the invoice address. -/
def validate_addresses (users : List User) (input : CreateOrderInput) :
    Except String Unit :=
  match validate_user_address users input.shipment_address_id input.user_id with
  | Except.error e => Except.error e
  | Except.ok _ => validate_user_address users input.invoice_address_id input.user_id

/-- Error message of a failed hash map retrieval during assembly. -/
def hashMapRetrievalMsg : String := "value for product variant is not present in the map"

/-- Association list lookup standing for HashMap get in the source. -/
def lookup? {α : Type} (m : List (Uuid × α)) (k : Uuid) : Option α :=
  (m.find? (fun p => p.1 == k)).map (fun p => p.2)

/-- Per-variant leg of the findApplicableDiscounts input, from the GraphQL
client types used in src/mutation.rs. -/
structure FindApplicableDiscountsProductVariantInput where
  product_variant_id : Uuid
  count : Int
  coupon_ids : List Uuid
deriving DecidableEq

/-- The findApplicableDiscounts input, from the GraphQL client types used in
src/mutation.rs. -/
structure FindApplicableDiscountsInput where
  user_id : Uuid
  product_variants : List FindApplicableDiscountsProductVariantInput
  order_amount : Int
deriving DecidableEq

/-- From src/mutation.rs (calculate_order_amount): the sum of the price of
each product variant version in the map.  The per-variant counts are not
consulted. -/
def calculate_order_amount
    (product_variant_versions_by_product_variant_ids : List (Uuid × ProductVariantVersion)) : Int :=
  (((product_variant_versions_by_product_variant_ids.map
      (fun p => p.2.price)).sum : Nat) : Int)

/-- From src/mutation.rs (build_find_applicable_discounts_product_variant_input):
for each product variant id, pair it with its count and the coupon ids of its
order item input. -/
def build_find_applicable_discounts_product_variant_input
    (order_item_inputs_by_product_variant_ids : List (Uuid × OrderItemInput))
    (product_variant_ids : List Uuid)
    (counts_by_product_variant_ids : List (Uuid × Nat)) :
    Except String (List FindApplicableDiscountsProductVariantInput) :=
  product_variant_ids.mapM (fun id =>
    match lookup? counts_by_product_variant_ids id with
    | none => Except.error hashMapRetrievalMsg
    | some count =>
      match lookup? order_item_inputs_by_product_variant_ids id with
      | none => Except.error hashMapRetrievalMsg
      | some inp =>
        Except.ok
          { product_variant_id := id
            count := (count : Int)
            coupon_ids := inp.coupon_ids })

/-- From src/mutation.rs (build_find_applicable_discounts_input). -/
def build_find_applicable_discounts_input (user_id : Uuid)
    (product_variants : List FindApplicableDiscountsProductVariantInput)
    (order_amount : Int) : FindApplicableDiscountsInput :=
  { user_id := user_id, product_variants := product_variants, order_amount := order_amount }

/-- The pure request-construction prefix of
query_discounts_by_product_variant_ids in src/mutation.rs: build the
per-variant input legs and attach order_amount computed by
calculate_order_amount. -/
def discounts_query_input (user_id : Uuid)
    (order_item_inputs_by_product_variant_ids : List (Uuid × OrderItemInput))
    (product_variant_ids : List Uuid)
    (product_variant_versions_by_product_variant_ids : List (Uuid × ProductVariantVersion))
    (counts_by_product_variant_ids : List (Uuid × Nat)) :
    Except String FindApplicableDiscountsInput :=
  match build_find_applicable_discounts_product_variant_input
      order_item_inputs_by_product_variant_ids product_variant_ids
      counts_by_product_variant_ids with
  | Except.error e => Except.error e
  | Except.ok pv_input =>
    Except.ok (build_find_applicable_discounts_input user_id pv_input
      (calculate_order_amount product_variant_versions_by_product_variant_ids))

/-- Definition following the words of the specification and of claim C6: the
order amount as the straight sum of retail_price times count over all items.
It exists only to be compared against calculate_order_amount taken from the
source. -/
def claimed_order_amount
    (product_variant_versions_by_product_variant_ids : List (Uuid × ProductVariantVersion))
    (counts_by_product_variant_ids : List (Uuid × Nat)) : Int :=
  (product_variant_versions_by_product_variant_ids.map
    (fun p => ((p.2.price : Int) * (((lookup? counts_by_product_variant_ids p.1).getD 0 : Nat) : Int)))).sum

/-! Concrete values used by the counterexample and witness theorems. -/

/-- A concrete order item with id 11 and compensatable amount 100. -/
def demoItem : OrderItem :=
  { _id := 11
    created_at := 0
    product_variant := { _id := 2, current_version := { _id := 20, price := 1000, tax_rate_id := 7 }, is_publicly_visible := true }
    product_variant_version := { _id := 20, price := 1000, tax_rate_id := 7 }
    tax_rate_version := { _id := 70, rate := (19 : ℚ) / 100, version := 1 }
    shopping_cart_item_id := 21
    count := 3
    compensatable_amount := 100
    shipment_method_id := 31
    internal_discounts := [] }

/-- A concrete pending order created at time 0. -/
def demoPendingOrder : Order := create_order 1 2 0 [demoItem] 3 4 5

/-- The stored order after placing the pending demo order at time 10. -/
def demoPlacedOrder : Order := (place_order demoPendingOrder 10).1

/-- The stored order after a place_order call on the pending demo order at
time 3601, one second past the window. -/
def demoRejectedOrder : Order := (place_order demoPendingOrder 3601).1

/-- The stored order after the placed demo order (placed at 10) is re-placed
at time 3700, past the window: the status update rejects it while its
placed_at survives. -/
def demoLateRejectedOrder : Order := (place_order demoPlacedOrder 3700).1

/-- A concrete order with one item (id 11, amount 100) for the compensation
scenarios. -/
def demoCompOrder : Order := { demoPendingOrder with _id := 1 }

/-- A stored compensation record already covering item 11. -/
def demoComp0 : OrderCompensation :=
  { _id := 90, order_id := 1, order_item_ids := [11], triggered_at := 0, amount_to_compensate := 100 }

/-- The record that the second, double-compensating event inserts. -/
def demoComp1 : OrderCompensation :=
  { _id := 91, order_id := 1, order_item_ids := [11], triggered_at := 5, amount_to_compensate := 100 }

/-- The shipment failure event naming order 1 and item 11. -/
def demoShipEv : ShipmentFailedEventData := { order_id := 1, order_item_ids := [11] }

/-- A shipment failure event whose item ids match no item of order 1. -/
def demoShipEvUnmatched : ShipmentFailedEventData := { order_id := 1, order_item_ids := [99] }

/-- A concrete user that owns no addresses. -/
def demoUser : User := { _id := 7, user_address_ids := [] }

/-- A create-order input of user 7 naming addresses 5 and 6. -/
def demoCreateInput : CreateOrderInput :=
  { user_id := 7
    order_item_inputs := []
    shipment_address_id := 5
    invoice_address_id := 6
    payment_information_id := 9 }

/-- Two discounts with distinct ids and factors 9/10 and 1/2. -/
def demoDiscounts : List Discount := [{ _id := 1, discount := (9 : ℚ) / 10 }, { _id := 2, discount := (1 : ℚ) / 2 }]

/-- The same two discounts in the reversed response order. -/
def demoDiscountsRev : List Discount := [{ _id := 2, discount := (1 : ℚ) / 2 }, { _id := 1, discount := (9 : ℚ) / 10 }]

/-- A product variant version priced 1000. -/
def demoPVV : ProductVariantVersion := { _id := 20, price := 1000, tax_rate_id := 7 }

/-- Version map of a single variant priced 1000. -/
def demoPvvs : List (Uuid × ProductVariantVersion) := [(2, demoPVV)]

/-- Count map requesting 3 units of the single variant. -/
def demoCounts : List (Uuid × Nat) := [(2, 3)]

/-- Item input map for the single variant. -/
def demoOii : List (Uuid × OrderItemInput) :=
  [(2, { shopping_cart_item_id := 21, shipment_method_id := 31, coupon_ids := [] })]

/-! Helper lemmas shared by the claim theorems. -/

/-- Rewriting the first matching user applies the update function to the user
that find? locates. -/
theorem update_first_mem (users : List User) (uid : Uuid) (f : User → User) (u : User)
    (hfind : users.find? (fun x => x._id == uid) = some u) :
    f u ∈ update_first users uid f := by
  induction users with
  | nil => simp [List.find?] at hfind
  | cons a rest ih =>
    by_cases h : a._id = uid
    · rw [List.find?_cons_of_pos] at hfind
      · rw [Option.some.injEq] at hfind
        subst hfind
        simp [update_first, h]
      · simp [h]
    · rw [List.find?_cons_of_neg] at hfind
      · have hmem := ih hfind
        simp only [update_first]
        rw [if_neg (by simp [h])]
        exact List.mem_cons_of_mem a hmem
      · simp [h]

/-! Theorems settling the claims, one per claim, each preceded by the claim id. -/

/-- C1 (counterexample to the claimed invariant, showing the code bug): with
one stored compensation already covering item 11, the shipment-failure event
naming item 11 again passes verify_items_uncompensated (the inverted MongoDB
filter returns only compensations DISJOINT from the requested ids, and there
are none), so compensate_order succeeds and inserts a second record; item 11
then occurs in two stored OrderCompensation records, and the claimed
at-most-once property is violated. -/
theorem claim_C1_double_compensation_not_prevented :
    verify_items_uncompensated [demoComp0] demoShipEv.order_item_ids = Except.ok ()
    ∧ compensate_order [demoCompOrder] [demoComp0] 91 5 demoShipEv
        = Except.ok ([demoComp0, demoComp1], { id := 91, amount_to_compensate := 100 })
    ∧ (([demoComp0, demoComp1]).filter (fun c => c.order_item_ids.contains 11)).length = 2 :=
  ⟨rfl, rfl, rfl⟩

/-- C7 (evaluation at the failing input, showing the code bug): the user
exists but owns no addresses, yet validate_addresses accepts the create-order
input naming addresses 5 and 6, because validate_user_address only queries
the user document and never consults user_address_ids. -/
theorem claim_C7_address_check_ignores_address_list :
    validate_addresses [demoUser] demoCreateInput = Except.ok ()
    ∧ demoUser._id = demoCreateInput.user_id
    ∧ demoCreateInput.shipment_address_id ∉ demoUser.user_address_ids
    ∧ demoCreateInput.invoice_address_id ∉ demoUser.user_address_ids := by
  refine ⟨rfl, rfl, ?_, ?_⟩ <;> simp [demoUser, demoCreateInput]

/-- C9 (counterexample): redelivering the same address-created event is not a
no-op; the push-based update appends the address id again, so the projected
list gains a duplicate. -/
theorem claim_C9_not_idempotent_counterexample :
    insert_user_address_in_mongodb
        (insert_user_address_in_mongodb [{ _id := 3, user_address_ids := [] }] { id := 8, user_id := 3 })
        { id := 8, user_id := 3 }
      = [{ _id := 3, user_address_ids := [8, 8] }]
    ∧ insert_user_address_in_mongodb
        (insert_user_address_in_mongodb [{ _id := 3, user_address_ids := [] }] { id := 8, user_id := 3 })
        { id := 8, user_id := 3 }
      ≠ insert_user_address_in_mongodb [{ _id := 3, user_address_ids := [] }] { id := 8, user_id := 3 } := by
  exact ⟨rfl, by decide⟩

/-- C9 (amended): handling an address-created event appends the address id to
the located user unconditionally, whether or not it is already present; the
occurrence count of the id grows by one on every delivery. -/
theorem claim_C9_address_append_unconditional (users : List User)
    (ev : UserAddressEventData) (u : User)
    (hfind : users.find? (fun x => x._id == ev.user_id) = some u) :
    ({ u with user_address_ids := u.user_address_ids ++ [ev.id] } : User)
        ∈ insert_user_address_in_mongodb users ev
    ∧ (u.user_address_ids ++ [ev.id]).count ev.id = u.user_address_ids.count ev.id + 1 := by
  constructor
  · exact update_first_mem users ev.user_id _ u hfind
  · simp [List.count_append]

/-- C9 witness: the amended statement applied to a user that already owns
address 8 receiving the created event for address 8 once more. -/
theorem claim_C9_address_append_unconditional_witness :
    ([{ _id := 3, user_address_ids := [8] }] : List User).find? (fun x => x._id == 3)
        = some { _id := 3, user_address_ids := [8] }
    ∧ (({ _id := 3, user_address_ids := [8, 8] } : User)
        ∈ insert_user_address_in_mongodb [{ _id := 3, user_address_ids := [8] }] { id := 8, user_id := 3 }
      ∧ (([8] ++ [8] : List Uuid)).count 8 = ([8] : List Uuid).count 8 + 1) :=
  ⟨rfl, claim_C9_address_append_unconditional [{ _id := 3, user_address_ids := [8] }] { id := 8, user_id := 3 } { _id := 3, user_address_ids := [8] } rfl⟩

/-- C6 (counterexample): for a single variant priced 1000 requested with
count 3, the orderAmount actually placed into the findApplicableDiscounts
input is 1000, while the claimed straight sum of retail_price times count is
3000. -/
theorem claim_C6_order_amount_counterexample :
    (discounts_query_input 2 demoOii [2] demoPvvs demoCounts).toOption.map
        FindApplicableDiscountsInput.order_amount = some 1000
    ∧ claimed_order_amount demoPvvs demoCounts = 3000
    ∧ ((1000 : Int) ≠ (3000 : Int)) := by
  exact ⟨rfl, rfl, by decide⟩

/-- C6 (amended): the orderAmount passed to the findApplicableDiscounts query
equals the sum of retail_price over the product variant versions of the
order; the per-variant counts do not enter the amount. -/
theorem claim_C6_order_amount_is_price_sum (user_id : Uuid)
    (oii : List (Uuid × OrderItemInput)) (pvids : List Uuid)
    (pvvs : List (Uuid × ProductVariantVersion)) (counts : List (Uuid × Nat))
    (inp : FindApplicableDiscountsInput)
    (h : discounts_query_input user_id oii pvids pvvs counts = Except.ok inp) :
    inp.order_amount = (((pvvs.map (fun p => p.2.price)).sum : Nat) : Int) := by
  unfold discounts_query_input at h
  cases hb : build_find_applicable_discounts_product_variant_input oii pvids counts with
  | error e => rw [hb] at h; cases h
  | ok pv_input =>
    rw [hb] at h
    cases h
    rfl

/-- C6 witness: the amended statement applied to the single-variant example. -/
theorem claim_C6_order_amount_is_price_sum_witness :
    discounts_query_input 2 demoOii [2] demoPvvs demoCounts
        = Except.ok (build_find_applicable_discounts_input 2
            [{ product_variant_id := 2, count := 3, coupon_ids := [] }] 1000)
    ∧ (build_find_applicable_discounts_input 2
          [{ product_variant_id := 2, count := 3, coupon_ids := [] }] 1000).order_amount
        = (((demoPvvs.map (fun p => p.2.price)).sum : Nat) : Int) :=
  ⟨rfl, claim_C6_order_amount_is_price_sum 2 demoOii [2] demoPvvs demoCounts _ rfl⟩

/-- C10: whenever the order exists and the uncompensated check passes,
compensate_order succeeds, stores the event id list verbatim in the new
record, and the amount sums compensatable_amount only over the order items
whose id occurs in the requested list; if no item matches, the amount is 0. -/
theorem claim_C10_unmatched_ids_compensation (orders : List Order)
    (comps : List OrderCompensation) (fresh : Uuid) (now : Instant)
    (ev : ShipmentFailedEventData) (o : Order)
    (ho : query_object orders ev.order_id = Except.ok o)
    (hv : verify_items_uncompensated comps ev.order_item_ids = Except.ok ()) :
    compensate_order orders comps fresh now ev
      = Except.ok (comps ++
          [{ _id := fresh
             order_id := ev.order_id
             order_item_ids := ev.order_item_ids
             triggered_at := now
             amount_to_compensate := calculate_amount_to_compensate o ev }],
          { id := fresh, amount_to_compensate := calculate_amount_to_compensate o ev })
    ∧ calculate_amount_to_compensate o ev
        = ((o.internal_order_items.filter
            (fun i => ev.order_item_ids.contains i._id)).map OrderItem.compensatable_amount).sum
    ∧ ((∀ i ∈ o.internal_order_items, i._id ∉ ev.order_item_ids) →
        calculate_amount_to_compensate o ev = 0) := by
  refine ⟨?_, rfl, ?_⟩
  · unfold compensate_order
    rw [ho, hv]
  · intro hnone
    unfold calculate_amount_to_compensate
    have hfilter : o.internal_order_items.filter
        (fun i => ev.order_item_ids.contains i._id) = [] := by
      rw [List.filter_eq_nil_iff]
      intro a ha
      simpa using hnone a ha
    rw [hfilter]
    rfl

/-- C10 witness: the statement applied to order 1 with single item 11 and an
event naming only the unmatched id 99: the stored list is the verbatim [99]
and the amount is 0. -/
theorem claim_C10_unmatched_ids_compensation_witness :
    query_object [demoCompOrder] demoShipEvUnmatched.order_id = Except.ok demoCompOrder
    ∧ verify_items_uncompensated [] demoShipEvUnmatched.order_item_ids = Except.ok ()
    ∧ (compensate_order [demoCompOrder] [] 91 5 demoShipEvUnmatched
        = Except.ok ([] ++
            [{ _id := 91
               order_id := demoShipEvUnmatched.order_id
               order_item_ids := demoShipEvUnmatched.order_item_ids
               triggered_at := 5
               amount_to_compensate := calculate_amount_to_compensate demoCompOrder demoShipEvUnmatched }],
            { id := 91, amount_to_compensate := calculate_amount_to_compensate demoCompOrder demoShipEvUnmatched })
      ∧ calculate_amount_to_compensate demoCompOrder demoShipEvUnmatched
          = ((demoCompOrder.internal_order_items.filter
              (fun i => demoShipEvUnmatched.order_item_ids.contains i._id)).map OrderItem.compensatable_amount).sum
      ∧ ((∀ i ∈ demoCompOrder.internal_order_items, i._id ∉ demoShipEvUnmatched.order_item_ids) →
          calculate_amount_to_compensate demoCompOrder demoShipEvUnmatched = 0))
    ∧ calculate_amount_to_compensate demoCompOrder demoShipEvUnmatched = 0 :=
  ⟨rfl, rfl, claim_C10_unmatched_ids_compensation [demoCompOrder] [] 91 5 demoShipEvUnmatched demoCompOrder rfl rfl, rfl⟩

/-- Updating the order status to rejected is the identity on an order that is
already rejected. -/
theorem order_update_rejected_self (o : Order) (h : o.order_status = OrderStatus.rejected) :
    ({ o with order_status := OrderStatus.rejected } : Order) = o := by
  cases o
  simp_all

/-- Invariant of all lifecycle states reachable by create, place and
compensation steps at non-decreasing times: the rejection reason is never
written, pending orders have no placement timestamp, placed orders have one,
rejection only ever happens strictly past the pending window, and the clock
never precedes the creation timestamp. -/
theorem lifecycle_invariant (st : LifecycleState) (h : Reachable st) :
    st.order.rejection_reason = none
    ∧ (st.order.order_status = OrderStatus.pending → st.order.placed_at = none)
    ∧ (st.order.order_status = OrderStatus.placed → st.order.placed_at ≠ none)
    ∧ (st.order.order_status = OrderStatus.rejected →
        st.order.created_at + PENDING_TIMEOUT < st.clock)
    ∧ st.order.created_at ≤ st.clock := by
  induction h with
  | create fresh user_id t items ship inv pay =>
    simp [create_order]
  | place st t h ht ih =>
    obtain ⟨i1, i2, i3, i4, i5⟩ := ih
    by_cases hcond : st.order.created_at + PENDING_TIMEOUT ≥ t
    · have hfst : (place_order st.order t).1
          = set_status_placed_in_mongodb st.order t := by
        unfold place_order set_status_placed
        rw [if_pos hcond]
        cases hdto : OrderDTO.tryFrom st.order <;> rfl
      refine ⟨?_, ?_, ?_, ?_, ?_⟩ <;>
        simp only [hfst, set_status_placed_in_mongodb]
      · exact i1
      · intro hs; cases hs
      · intro _ hnone; cases hnone
      · intro hs; cases hs
      · exact le_trans i5 ht
    · have hfst : (place_order st.order t).1
          = ({ st.order with order_status := OrderStatus.rejected } : Order) := by
        unfold place_order set_status_placed set_status_rejected_in_mongodb
        rw [if_neg hcond]
      refine ⟨?_, ?_, ?_, ?_, ?_⟩ <;>
        simp only [hfst]
      · exact i1
      · intro hs; cases hs
      · intro hs; cases hs
      · intro _; exact not_le.mp hcond
      · exact le_trans i5 ht
  | compensate st t h ht ih =>
    obtain ⟨i1, i2, i3, i4, i5⟩ := ih
    exact ⟨i1, i2, i3, fun hs => lt_of_lt_of_le (i4 hs) ht, le_trans i5 ht⟩

/-- C2 (counterexample): placing the pending demo order exactly at the window
boundary durably sets the placed status and timestamp, but the call does not
return the order: the order-created event is built from the pre-placement
snapshot whose placed_at is unset, so place_order returns that error. -/
theorem claim_C2_boundary_place_returns_error :
    (place_order demoPendingOrder 3600).1.order_status = OrderStatus.placed
    ∧ (place_order demoPendingOrder 3600).1.placed_at = some 3600
    ∧ (place_order demoPendingOrder 3600).2.2 = Except.error dtoPlacedAtNoneMsg :=
  ⟨rfl, rfl, rfl⟩

/-- C2 (amended): for every pending order (no placement timestamp yet), a
place_order call at t at or before created_at plus 3600 seconds (non-strict)
durably sets status placed and placed_at to t but returns the event
construction error instead of the order and publishes nothing, while a call
at t strictly past the window durably sets status rejected, leaves placed_at
unset, publishes nothing, and returns the timeout error. -/
theorem claim_C2_place_timeout_boundary (o : Order)
    (hpend : o.order_status = OrderStatus.pending) (hpa : o.placed_at = none)
    (t : Instant) :
    (t ≤ o.created_at + PENDING_TIMEOUT →
      (place_order o t).1.order_status = OrderStatus.placed
      ∧ (place_order o t).1.placed_at = some t
      ∧ (place_order o t).2.1 = []
      ∧ (place_order o t).2.2 = Except.error dtoPlacedAtNoneMsg)
    ∧ (o.created_at + PENDING_TIMEOUT < t →
      (place_order o t).1.order_status = OrderStatus.rejected
      ∧ (place_order o t).1.placed_at = none
      ∧ (place_order o t).2.1 = []
      ∧ (place_order o t).2.2 = Except.error rejectedTimeoutMsg) := by
  have hstatus := hpend
  constructor
  · intro ht
    have hcond : o.created_at + PENDING_TIMEOUT ≥ t := ht
    unfold place_order set_status_placed
    rw [if_pos hcond]
    unfold OrderDTO.tryFrom
    rw [hpa]
    exact ⟨rfl, rfl, rfl, rfl⟩
  · intro ht
    have hcond : ¬ (o.created_at + PENDING_TIMEOUT ≥ t) := not_le.mpr ht
    unfold place_order set_status_placed set_status_rejected_in_mongodb
    rw [if_neg hcond]
    exact ⟨rfl, hpa, rfl, rfl⟩

/-- C2 witness: the amended statement applied to the pending demo order at
the exact boundary instant 3600. -/
theorem claim_C2_place_timeout_boundary_witness :
    demoPendingOrder.order_status = OrderStatus.pending
    ∧ demoPendingOrder.placed_at = none
    ∧ (((3600 : Int) ≤ demoPendingOrder.created_at + PENDING_TIMEOUT →
        (place_order demoPendingOrder 3600).1.order_status = OrderStatus.placed
        ∧ (place_order demoPendingOrder 3600).1.placed_at = some (3600 : Int)
        ∧ (place_order demoPendingOrder 3600).2.1 = []
        ∧ (place_order demoPendingOrder 3600).2.2 = Except.error dtoPlacedAtNoneMsg)
      ∧ (demoPendingOrder.created_at + PENDING_TIMEOUT < (3600 : Int) →
        (place_order demoPendingOrder 3600).1.order_status = OrderStatus.rejected
        ∧ (place_order demoPendingOrder 3600).1.placed_at = none
        ∧ (place_order demoPendingOrder 3600).2.1 = []
        ∧ (place_order demoPendingOrder 3600).2.2 = Except.error rejectedTimeoutMsg)) :=
  ⟨rfl, rfl, claim_C2_place_timeout_boundary demoPendingOrder rfl rfl 3600⟩

/-- C4 (evaluation at the failing input, showing the code bug): placing the
pending demo order at time 10, well inside the window, stores the placed
status but publishes no order-created event at all; the event payload is
built from the snapshot queried before the update, whose placed_at is unset,
so the DTO conversion fails and the call errors, contradicting the claimed
single event carrying the placed order. -/
theorem claim_C4_event_from_preplacement_snapshot :
    (place_order demoPendingOrder 10).1.order_status = OrderStatus.placed
    ∧ (place_order demoPendingOrder 10).1.placed_at = some 10
    ∧ (place_order demoPendingOrder 10).2.1 = []
    ∧ (place_order demoPendingOrder 10).2.2 = Except.error dtoPlacedAtNoneMsg :=
  ⟨rfl, rfl, rfl, rfl⟩

/-- C3 (counterexample): the placed demo order (placed at 10) is reachable,
yet a second place_order call at 20 overwrites placed_at with 20 and
publishes an order-created event, so placed is not a terminal state in the
claimed sense. -/
theorem claim_C3_placed_not_terminal_counterexample :
    Reachable ⟨demoPlacedOrder, [], 10⟩
    ∧ demoPlacedOrder.order_status = OrderStatus.placed
    ∧ demoPlacedOrder.placed_at = some 10
    ∧ (place_order demoPlacedOrder 20).1.placed_at = some 20
    ∧ (place_order demoPlacedOrder 20).1.order_status = OrderStatus.placed
    ∧ (place_order demoPlacedOrder 20).2.1.length = 1 := by
  refine ⟨?_, rfl, rfl, rfl, rfl, rfl⟩
  have h0 : Reachable ⟨demoPendingOrder, [], 0⟩ := Reachable.create 1 2 0 [demoItem] 3 4 5
  exact Reachable.place ⟨demoPendingOrder, [], 0⟩ 10 h0 (by decide)

/-- C3 (amended): under monotone time, rejected is terminal: a later place
call leaves the order and its placed_at untouched, publishes nothing and
returns the timeout error.  Placed is not terminal: a later place call still
inside the window overwrites placed_at with the new time and publishes one
more order-created event, and a later place call strictly past the window
turns the placed order into a rejected one while keeping its placed_at,
publishing nothing and returning the timeout error. -/
theorem claim_C3_final_states (st : LifecycleState) (h : Reachable st)
    (t : Instant) (ht : st.clock ≤ t) :
    (st.order.order_status = OrderStatus.rejected →
      (place_order st.order t).1 = st.order
      ∧ (place_order st.order t).2.1 = []
      ∧ (place_order st.order t).2.2 = Except.error rejectedTimeoutMsg)
    ∧ (st.order.order_status = OrderStatus.placed →
        t ≤ st.order.created_at + PENDING_TIMEOUT →
      (place_order st.order t).1.order_status = OrderStatus.placed
      ∧ (place_order st.order t).1.placed_at = some t
      ∧ (place_order st.order t).2.1.length = 1)
    ∧ (st.order.order_status = OrderStatus.placed →
        st.order.created_at + PENDING_TIMEOUT < t →
      (place_order st.order t).1.order_status = OrderStatus.rejected
      ∧ (place_order st.order t).1.placed_at = st.order.placed_at
      ∧ (place_order st.order t).2.1 = []
      ∧ (place_order st.order t).2.2 = Except.error rejectedTimeoutMsg) := by
  obtain ⟨i1, i2, i3, i4, i5⟩ := lifecycle_invariant st h
  refine ⟨?_, ?_, ?_⟩
  · intro hrej
    have hlt : st.order.created_at + PENDING_TIMEOUT < t := lt_of_lt_of_le (i4 hrej) ht
    have hcond : ¬ (st.order.created_at + PENDING_TIMEOUT ≥ t) := not_le.mpr hlt
    unfold place_order set_status_placed set_status_rejected_in_mongodb
    rw [if_neg hcond]
    exact ⟨order_update_rejected_self st.order hrej, rfl, rfl⟩
  · intro hplaced ht2
    have hcond : st.order.created_at + PENDING_TIMEOUT ≥ t := ht2
    cases hpa : st.order.placed_at with
    | none => exact absurd hpa (i3 hplaced)
    | some t0 =>
      unfold place_order set_status_placed OrderDTO.tryFrom
      rw [if_pos hcond, hpa]
      exact ⟨rfl, rfl, rfl⟩
  · intro hplaced ht2
    have hcond : ¬ (st.order.created_at + PENDING_TIMEOUT ≥ t) := not_le.mpr ht2
    unfold place_order set_status_placed set_status_rejected_in_mongodb
    rw [if_neg hcond]
    exact ⟨rfl, rfl, rfl, rfl⟩

/-- C3 witness: the amended statement applied twice, first to the reachable
rejected demo state (created at 0, rejected at 3601) with a further place
attempt at 3700 exercising the rejected-terminal conjunct, and second to the
reachable placed demo state (placed at 10) with a place attempt at 3700
exercising the placed-past-window conjunct. -/
theorem claim_C3_final_states_witness :
    (Reachable ⟨demoRejectedOrder, [], 3601⟩
    ∧ ((3601 : Int) ≤ (3700 : Int))
    ∧ ((demoRejectedOrder.order_status = OrderStatus.rejected →
        (place_order demoRejectedOrder 3700).1 = demoRejectedOrder
        ∧ (place_order demoRejectedOrder 3700).2.1 = []
        ∧ (place_order demoRejectedOrder 3700).2.2 = Except.error rejectedTimeoutMsg)
      ∧ (demoRejectedOrder.order_status = OrderStatus.placed →
          (3700 : Int) ≤ demoRejectedOrder.created_at + PENDING_TIMEOUT →
        (place_order demoRejectedOrder 3700).1.order_status = OrderStatus.placed
        ∧ (place_order demoRejectedOrder 3700).1.placed_at = some (3700 : Int)
        ∧ (place_order demoRejectedOrder 3700).2.1.length = 1)
      ∧ (demoRejectedOrder.order_status = OrderStatus.placed →
          demoRejectedOrder.created_at + PENDING_TIMEOUT < (3700 : Int) →
        (place_order demoRejectedOrder 3700).1.order_status = OrderStatus.rejected
        ∧ (place_order demoRejectedOrder 3700).1.placed_at = demoRejectedOrder.placed_at
        ∧ (place_order demoRejectedOrder 3700).2.1 = []
        ∧ (place_order demoRejectedOrder 3700).2.2 = Except.error rejectedTimeoutMsg)))
    ∧ (Reachable ⟨demoPlacedOrder, [], 10⟩
    ∧ ((10 : Int) ≤ (3700 : Int))
    ∧ demoPlacedOrder.order_status = OrderStatus.placed
    ∧ demoPlacedOrder.created_at + PENDING_TIMEOUT < (3700 : Int)
    ∧ ((demoPlacedOrder.order_status = OrderStatus.rejected →
        (place_order demoPlacedOrder 3700).1 = demoPlacedOrder
        ∧ (place_order demoPlacedOrder 3700).2.1 = []
        ∧ (place_order demoPlacedOrder 3700).2.2 = Except.error rejectedTimeoutMsg)
      ∧ (demoPlacedOrder.order_status = OrderStatus.placed →
          (3700 : Int) ≤ demoPlacedOrder.created_at + PENDING_TIMEOUT →
        (place_order demoPlacedOrder 3700).1.order_status = OrderStatus.placed
        ∧ (place_order demoPlacedOrder 3700).1.placed_at = some (3700 : Int)
        ∧ (place_order demoPlacedOrder 3700).2.1.length = 1)
      ∧ (demoPlacedOrder.order_status = OrderStatus.placed →
          demoPlacedOrder.created_at + PENDING_TIMEOUT < (3700 : Int) →
        (place_order demoPlacedOrder 3700).1.order_status = OrderStatus.rejected
        ∧ (place_order demoPlacedOrder 3700).1.placed_at = demoPlacedOrder.placed_at
        ∧ (place_order demoPlacedOrder 3700).2.1 = []
        ∧ (place_order demoPlacedOrder 3700).2.2 = Except.error rejectedTimeoutMsg))) := by
  have h0 : Reachable ⟨demoPendingOrder, [], 0⟩ := Reachable.create 1 2 0 [demoItem] 3 4 5
  have hreach : Reachable ⟨demoRejectedOrder, [], 3601⟩ :=
    Reachable.place ⟨demoPendingOrder, [], 0⟩ 3601 h0 (by decide)
  have hreach2 : Reachable ⟨demoPlacedOrder, [], 10⟩ :=
    Reachable.place ⟨demoPendingOrder, [], 0⟩ 10 h0 (by decide)
  exact ⟨⟨hreach, by decide,
      claim_C3_final_states ⟨demoRejectedOrder, [], 3601⟩ hreach 3700 (by decide)⟩,
    ⟨hreach2, by decide, rfl, by decide,
      claim_C3_final_states ⟨demoPlacedOrder, [], 10⟩ hreach2 3700 (by decide)⟩⟩

/-- C8 (counterexamples, one per claimed coupling): first, the rejected demo
state is reachable (order created at 0, place attempted at 3601), its status
is rejected, yet its rejection_reason is unset, contradicting the claimed
equivalence that rejection_reason is set if and only if the status is
rejected.  Second, the late-rejected demo state is reachable (order created
at 0, placed at 10, re-placed at 3700 past the window), its placed_at is
still set to 10, yet its status is rejected, not placed, contradicting the
claimed equivalence that placed_at is set if and only if the status is
placed. -/
theorem claim_C8_coupling_counterexamples :
    (Reachable ⟨demoRejectedOrder, [], 3601⟩
    ∧ demoRejectedOrder.order_status = OrderStatus.rejected
    ∧ demoRejectedOrder.rejection_reason = none)
    ∧ (Reachable ⟨demoLateRejectedOrder, [], 3700⟩
    ∧ demoLateRejectedOrder.placed_at = some 10
    ∧ demoLateRejectedOrder.order_status = OrderStatus.rejected
    ∧ demoLateRejectedOrder.order_status ≠ OrderStatus.placed) := by
  have h0 : Reachable ⟨demoPendingOrder, [], 0⟩ := Reachable.create 1 2 0 [demoItem] 3 4 5
  have h1 : Reachable ⟨demoRejectedOrder, [], 3601⟩ :=
    Reachable.place ⟨demoPendingOrder, [], 0⟩ 3601 h0 (by decide)
  have h2 : Reachable ⟨demoPlacedOrder, [], 10⟩ :=
    Reachable.place ⟨demoPendingOrder, [], 0⟩ 10 h0 (by decide)
  have h3 : Reachable ⟨demoLateRejectedOrder, [], 3700⟩ :=
    Reachable.place ⟨demoPlacedOrder, [], 10⟩ 3700 h2 (by decide)
  exact ⟨⟨h1, rfl, rfl⟩, ⟨h3, rfl, rfl, by decide⟩⟩

/-- C8 (amended): in every reachable state, rejection_reason is never set (so
a timeout-rejected order carries no reason), a placed order always has a
placement timestamp, a pending order never has one, and an order with a
placement timestamp is placed or rejected (the latter arises from a placed
order re-placed past the window). -/
theorem claim_C8_status_field_coupling (st : LifecycleState) (h : Reachable st) :
    st.order.rejection_reason = none
    ∧ (st.order.order_status = OrderStatus.placed → st.order.placed_at ≠ none)
    ∧ (st.order.order_status = OrderStatus.pending → st.order.placed_at = none)
    ∧ (st.order.placed_at ≠ none →
        st.order.order_status = OrderStatus.placed
        ∨ st.order.order_status = OrderStatus.rejected) := by
  obtain ⟨i1, i2, i3, i4, i5⟩ := lifecycle_invariant st h
  refine ⟨i1, i3, i2, ?_⟩
  intro hpa
  cases hs : st.order.order_status with
  | pending => exact absurd (i2 hs) hpa
  | placed => exact Or.inl rfl
  | rejected => exact Or.inr rfl

/-- C8 witness: the amended statement applied to the reachable placed demo
state. -/
theorem claim_C8_status_field_coupling_witness :
    Reachable ⟨demoPlacedOrder, [], 10⟩
    ∧ (demoPlacedOrder.rejection_reason = none
      ∧ (demoPlacedOrder.order_status = OrderStatus.placed → demoPlacedOrder.placed_at ≠ none)
      ∧ (demoPlacedOrder.order_status = OrderStatus.pending → demoPlacedOrder.placed_at = none)
      ∧ (demoPlacedOrder.placed_at ≠ none →
          demoPlacedOrder.order_status = OrderStatus.placed
          ∨ demoPlacedOrder.order_status = OrderStatus.rejected)) := by
  have h0 : Reachable ⟨demoPendingOrder, [], 0⟩ := Reachable.create 1 2 0 [demoItem] 3 4 5
  have hreach : Reachable ⟨demoPlacedOrder, [], 10⟩ :=
    Reachable.place ⟨demoPendingOrder, [], 0⟩ 10 h0 (by decide)
  exact ⟨hreach, claim_C8_status_field_coupling ⟨demoPlacedOrder, [], 10⟩ hreach⟩

/-- Folding multiplication of the discount factors over a starting price is
the price times the product of the factors. -/
theorem foldl_mul_discount (l : List Discount) (a : ℚ) :
    l.foldl (fun prev_price d => prev_price * d.discount) a
      = a * (l.map Discount.discount).prod := by
  induction l generalizing a with
  | nil => simp
  | cons x xs ih =>
    simp only [List.foldl_cons, List.map_cons, List.prod_cons, ih]
    ring

/-- Inserting two discounts with ascending distinct ids into the ordered set
commutes. -/
theorem insertDiscount_comm_lt (a b : Discount) (hab : a._id < b._id) (s : List Discount) :
    insertDiscount (insertDiscount s a) b = insertDiscount (insertDiscount s b) a := by
  have hba1 : ¬ b._id < a._id := not_lt.mpr hab.le
  have hba2 : ¬ b._id = a._id := ne_of_gt hab
  have hab2 : ¬ a._id = b._id := ne_of_lt hab
  induction s with
  | nil =>
    simp [insertDiscount, hab, hba1, hba2]
  | cons x xs ih =>
    rcases lt_trichotomy a._id x._id with hax | hax | hax
    · rcases lt_trichotomy b._id x._id with hbx | hbx | hbx
      · simp [insertDiscount, hax, hbx, hab, hba1, hba2]
      · simp [insertDiscount, hax, hbx, hab, hba1, hba2, hax.le]
      · have hx1 : ¬ b._id < x._id := not_lt.mpr hbx.le
        have hx2 : ¬ b._id = x._id := ne_of_gt hbx
        simp [insertDiscount, hax, hab, hba1, hba2, hx1, hx2]
    · have hxb : x._id < b._id := hax ▸ hab
      have h1 : ¬ a._id < x._id := by rw [hax]; exact lt_irrefl _
      have h2 : ¬ b._id < x._id := not_lt.mpr hxb.le
      have h3 : ¬ b._id = x._id := ne_of_gt hxb
      simp [insertDiscount, hax, h1, h2, h3, hba1, hba2]
    · have hxb : x._id < b._id := lt_trans hax hab
      have h1 : ¬ a._id < x._id := not_lt.mpr hax.le
      have h2 : ¬ a._id = x._id := ne_of_gt hax
      have h3 : ¬ b._id < x._id := not_lt.mpr hxb.le
      have h4 : ¬ b._id = x._id := ne_of_gt hxb
      simp [insertDiscount, h1, h2, h3, h4, ih]

/-- Inserting two discounts with distinct ids into the ordered set commutes. -/
theorem insertDiscount_comm (a b : Discount) (hab : a._id ≠ b._id) (s : List Discount) :
    insertDiscount (insertDiscount s a) b = insertDiscount (insertDiscount s b) a := by
  rcases lt_or_gt_of_ne hab with h | h
  · exact insertDiscount_comm_lt a b h s
  · exact (insertDiscount_comm_lt b a h s).symm

/-- Collecting a discount response list with pairwise distinct ids into the
ordered set is invariant under permutation of the response. -/
theorem discountSetOfList_perm (l l2 : List Discount)
    (hn : (l.map Discount._id).Nodup) (hp : l.Perm l2) :
    discountSetOfList l = discountSetOfList l2 := by
  unfold discountSetOfList
  refine hp.foldl_eq' ?_ []
  intro x hx y hy z
  by_cases hxy : x = y
  · subst hxy; rfl
  · have hid : x._id ≠ y._id := fun hideq => hxy (List.inj_on_of_nodup_map hn hx hy hideq)
    exact insertDiscount_comm x y hid z

/-- C5: an order item built at create time from a product variant version
priced p and the discount set collected from a response list with distinct
discount ids has compensatable_amount equal to the floor of p times the
product of the discount factors of the set; the item count is not a factor,
and collecting any permutation of the response yields the same set and hence
the same amount. -/
theorem claim_C5_compensatable_amount (pvv : ProductVariantVersion)
    (l l2 : List Discount) (hn : (l.map Discount._id).Nodup) (hp : l.Perm l2)
    (fresh : Uuid) (inp : OrderItemInput) (pv : ProductVariant)
    (trv : TaxRateVersion) (count count2 : Nat) (ts : Instant) :
    (OrderItem.new fresh inp pv pvv trv count (discountSetOfList l) ts).compensatable_amount
      = (⌊(pvv.price : ℚ) * ((discountSetOfList l).map Discount.discount).prod⌋).toNat
    ∧ discountSetOfList l2 = discountSetOfList l
    ∧ (OrderItem.new fresh inp pv pvv trv count2 (discountSetOfList l2) ts).compensatable_amount
      = (OrderItem.new fresh inp pv pvv trv count (discountSetOfList l) ts).compensatable_amount := by
  have hset : discountSetOfList l2 = discountSetOfList l :=
    (discountSetOfList_perm l l2 hn hp).symm
  refine ⟨?_, hset, ?_⟩
  · simp [OrderItem.new, calculate_compensatable_amount, foldl_mul_discount]
  · simp [OrderItem.new, calculate_compensatable_amount, hset]

/-- C5 witness: price 1000 with discount factors 9/10 and 1/2 delivered in
either response order yields the same ordered set and the amount 450. -/
theorem claim_C5_compensatable_amount_witness :
    (demoDiscounts.map Discount._id).Nodup
    ∧ demoDiscounts.Perm demoDiscountsRev
    ∧ ((OrderItem.new 40 { shopping_cart_item_id := 21, shipment_method_id := 31, coupon_ids := [] }
          { _id := 2, current_version := demoPVV, is_publicly_visible := true } demoPVV
          { _id := 70, rate := (19 : ℚ) / 100, version := 1 } 3
          (discountSetOfList demoDiscounts) 0).compensatable_amount
        = (⌊(demoPVV.price : ℚ) * ((discountSetOfList demoDiscounts).map Discount.discount).prod⌋).toNat
      ∧ discountSetOfList demoDiscountsRev = discountSetOfList demoDiscounts
      ∧ (OrderItem.new 40 { shopping_cart_item_id := 21, shipment_method_id := 31, coupon_ids := [] }
          { _id := 2, current_version := demoPVV, is_publicly_visible := true } demoPVV
          { _id := 70, rate := (19 : ℚ) / 100, version := 1 } 5
          (discountSetOfList demoDiscountsRev) 0).compensatable_amount
        = (OrderItem.new 40 { shopping_cart_item_id := 21, shipment_method_id := 31, coupon_ids := [] }
          { _id := 2, current_version := demoPVV, is_publicly_visible := true } demoPVV
          { _id := 70, rate := (19 : ℚ) / 100, version := 1 } 3
          (discountSetOfList demoDiscounts) 0).compensatable_amount)
    ∧ (OrderItem.new 40 { shopping_cart_item_id := 21, shipment_method_id := 31, coupon_ids := [] }
          { _id := 2, current_version := demoPVV, is_publicly_visible := true } demoPVV
          { _id := 70, rate := (19 : ℚ) / 100, version := 1 } 3
          (discountSetOfList demoDiscounts) 0).compensatable_amount = 450 := by
  have hnodup : (demoDiscounts.map Discount._id).Nodup := by
    simp [demoDiscounts]
  have hperm : demoDiscounts.Perm demoDiscountsRev := by
    unfold demoDiscounts demoDiscountsRev
    exact List.Perm.swap _ _ []
  refine ⟨hnodup, hperm,
    claim_C5_compensatable_amount demoPVV demoDiscounts demoDiscountsRev hnodup hperm 40
      { shopping_cart_item_id := 21, shipment_method_id := 31, coupon_ids := [] }
      { _id := 2, current_version := demoPVV, is_publicly_visible := true }
      { _id := 70, rate := (19 : ℚ) / 100, version := 1 } 3 5 0, ?_⟩
  simp [OrderItem.new, calculate_compensatable_amount, discountSetOfList, insertDiscount,
    demoDiscounts, demoPVV]
  norm_num
  decide

end OrderService
